import Mathlib

/-
Verification of the parking-lot state engine of Campus-Smart-Parking-Finder.
The definitions below are a shallow embedding of src/parking_server.py:
Python ints become Lean Int, wall-clock datetimes become an explicit
integer parameter `now` threaded through every call, and the per-lot
reservation dict (string key -> Reservation, unique keys, insertion
ordered) becomes an association list.  Mutation of the lot object becomes
explicit state passing: every operation returns the updated lot next to
its Python return value.
-/

namespace Parking

/-- Reservation, from class Reservation (parking_server.py, lines 25-34).
created_at is datetime.now() at construction, expires_at is
created_at + timeout_seconds. -/
structure Reservation where
  lot_id : String
  plate : String
  created_at : Int
  expires_at : Int
deriving Repr, DecidableEq

/-- Reservation.is_expired: now > expires_at (line 33-34). -/
def Reservation.is_expired (now : Int) (r : Reservation) : Bool :=
  decide (r.expires_at < now)

/-- ParkingLot state, from class ParkingLot (lines 37-44).  The lock is
concurrency plumbing with no sequential meaning and is not modelled;
the reservations dict is an association list keyed by plate. -/
structure ParkingLot where
  id : String
  capacity : Int
  occupied : Int
  reservations : List (String × Reservation)
deriving Repr, DecidableEq

/-- Membership test `plate in self.reservations` on the dict keys. -/
def hasKey (res : List (String × Reservation)) (plate : String) : Bool :=
  res.any (fun p => decide (p.1 = plate))

/-- ParkingLot._cleanup_expired_reservations (lines 52-62): delete every
entry whose reservation is expired at `now` (logging dropped). -/
def cleanup_expired (now : Int) (lot : ParkingLot) : ParkingLot :=
  { lot with reservations :=
      lot.reservations.filter (fun p => ! p.2.is_expired now) }

/-- ParkingLot.get_free (lines 46-50): sweep expired reservations, then
return capacity - occupied - len(reservations), next to the swept state. -/
def get_free (now : Int) (lot : ParkingLot) : Int × ParkingLot :=
  let lot1 := cleanup_expired now lot
  (lot1.capacity - lot1.occupied - (lot1.reservations.length : Int), lot1)

/-- ParkingLot.reserve (lines 64-82): sweep, then EXISTS if the plate is
present, then FULL if get_free() <= 0 (get_free sweeps again, as in the
source), else insert Reservation(self.id, plate, timeout) and return OK. -/
def reserve (now : Int) (plate : String) (timeout_seconds : Int)
    (lot : ParkingLot) : String × ParkingLot :=
  let lot1 := cleanup_expired now lot
  if hasKey lot1.reservations plate then ("EXISTS", lot1)
  else if (get_free now lot1).1 ≤ 0 then ("FULL", (get_free now lot1).2)
  else ("OK",
    { (get_free now lot1).2 with
      reservations := (get_free now lot1).2.reservations ++
        [(plate,
          { lot_id := lot1.id, plate := plate, created_at := now,
            expires_at := now + timeout_seconds })] })

/-- Dict deletion del self.reservations[plate]: keys are unique, so
filtering the key out is exact. -/
def removeKey (res : List (String × Reservation)) (plate : String) :
    List (String × Reservation) :=
  res.filter (fun p => ! decide (p.1 = plate))

/-- ParkingLot.cancel (lines 84-96): delete the entry for the plate if
present and return OK, else NOT_FOUND.  Note the source performs no
expiry sweep here. -/
def cancel (plate : String) (lot : ParkingLot) : String × ParkingLot :=
  if hasKey lot.reservations plate then
    ("OK", { lot with reservations := removeKey lot.reservations plate })
  else ("NOT_FOUND", lot)

/-- ParkingLot.update_occupancy (lines 98-112): the old_free read sweeps
the reservations (its numeric value is only logged), then occupied is
clamped to [0, capacity], then the new free count is returned by a second
get_free call. -/
def update_occupancy (now : Int) (delta : Int) (lot : ParkingLot) :
    Int × ParkingLot :=
  let lot1 := (get_free now lot).2
  let lot2 := { lot1 with
    occupied := max 0 (min lot1.capacity (lot1.occupied + delta)) }
  get_free now lot2

/-- Snapshot record returned by ParkingLot.to_dict (lines 114-122). -/
structure LotSnapshot where
  id : String
  capacity : Int
  occupied : Int
  free : Int
deriving Repr, DecidableEq

/-- ParkingLot.to_dict (lines 114-122): id, capacity and occupied are read
directly; free comes from get_free, whose sweep also updates the lot. -/
def to_dict (now : Int) (lot : ParkingLot) : LotSnapshot × ParkingLot :=
  ({ id := lot.id, capacity := lot.capacity, occupied := lot.occupied,
     free := (get_free now lot).1 },
   (get_free now lot).2)

/-- One client-visible operation on a single lot, each carrying the wall
clock instant at which it runs. -/
inductive LotOp where
  | getFree (now : Int)
  | reserveOp (now : Int) (plate : String) (ttl : Int)
  | cancelOp (plate : String)
  | applyDelta (now : Int) (delta : Int)
  | snapshotOp (now : Int)
deriving Repr, DecidableEq

/-- State effect of one operation on the lot. -/
def LotOp.apply (lot : ParkingLot) : LotOp → ParkingLot
  | .getFree now => (get_free now lot).2
  | .reserveOp now plate ttl => (reserve now plate ttl lot).2
  | .cancelOp plate => (cancel plate lot).2
  | .applyDelta now delta => (update_occupancy now delta lot).2
  | .snapshotOp now => (to_dict now lot).2

/-- Run a sequence of operations against a lot. -/
def runOps (lot : ParkingLot) (ops : List LotOp) : ParkingLot :=
  ops.foldl LotOp.apply lot

/-- Discriminator for the occupancy-delta operation. -/
def LotOp.isDelta : LotOp → Bool
  | .applyDelta _ _ => true
  | _ => false

/-- Valid initial lot state: 0 ≤ occupied ≤ capacity and no reservations,
as produced by server startup from configuration. -/
def ValidInit (lot : ParkingLot) : Prop :=
  0 ≤ lot.occupied ∧ lot.occupied ≤ lot.capacity ∧ lot.reservations = []

/-- Raw free value of a lot state, exactly the arithmetic get_free
performs after its sweep. -/
def freeOf (lot : ParkingLot) : Int :=
  lot.capacity - lot.occupied - (lot.reservations.length : Int)

/-- Occupancy bounds maintained by every lot operation. -/
def Inv1 (lot : ParkingLot) : Prop :=
  0 ≤ lot.occupied ∧ lot.occupied ≤ lot.capacity

/-- Admission invariant: occupied plus reservation count stays within
capacity.  Holds for every operation except update_occupancy, whose clamp
ignores the reservations. -/
def Inv2 (lot : ParkingLot) : Prop :=
  Inv1 lot ∧ lot.occupied + (lot.reservations.length : Int) ≤ lot.capacity

/-- The lot registry self.lots: dict lot_id -> ParkingLot, as an
association list. -/
abbrev LotsMap := List (String × ParkingLot)

/-- Dict lookup self.lots[lot_id] guarded by `lot_id in self.lots`. -/
def lookupLot (lots : LotsMap) (lot_id : String) : Option ParkingLot :=
  (List.find? (fun p => decide (p.1 = lot_id)) lots).map Prod.snd

/-- In-place mutation of the lot object held in the registry becomes a
pointwise map over the association list. -/
def setLot (lots : LotsMap) (lot_id : String) (lot : ParkingLot) : LotsMap :=
  lots.map (fun p => if p.1 = lot_id then (p.1, lot) else p)

/-- Outcome of one pass of the update worker over a dequeued command:
the registry afterwards, the Publish calls made, and whether the
unknown-lot warning was logged. -/
structure WorkerResult where
  lots : LotsMap
  published : List (String × Int)
  warned : Bool
deriving Repr, DecidableEq

/-- ParkingServer._update_worker, body for one parsed command
`UPDATE lot_id delta` (parking_server.py, lines 487-499): if the lot is
registered, read old_free, apply the delta, and publish (lot_id, new_free)
exactly when the free count changed; otherwise log a warning and discard. -/
def update_worker_step (now : Int) (lots : LotsMap) (lot_id : String)
    (delta : Int) : WorkerResult :=
  match lookupLot lots lot_id with
  | some lot =>
      let old_free := (get_free now lot).1
      let lotA := (get_free now lot).2
      let new_free := (update_occupancy now delta lotA).1
      let lotB := (update_occupancy now delta lotA).2
      { lots := setLot lots lot_id lotB,
        published := if old_free = new_free then [] else [(lot_id, new_free)],
        warned := false }
  | none => { lots := lots, published := [], warned := true }

/-- Python str.strip(): drop leading and trailing whitespace.  Defined by
structural recursion over the character list so that it evaluates inside
the kernel. -/
def strip (s : String) : String :=
  String.mk
    (((s.data.dropWhile Char.isWhitespace).reverse.dropWhile
        Char.isWhitespace).reverse)

/-- ParkingServer._handle_sensor_client, per complete line (lines 467-473):
strip the line; if non-empty, enqueue it for the workers and answer ACK.
Returns the commands enqueued and the responses written. -/
def handle_sensor_line (line : String) : List String × List String :=
  let l := strip line
  if l = "" then ([], []) else ([l], ["ACK"])

/-- Bounded event queue of one subscriber, mirroring queue.Queue with the
configured maxsize (items ordered oldest first). -/
structure SubQueue where
  maxsize : Nat
  items : List String
deriving Repr, DecidableEq

/-- Queue.full as used by put_nowait: true when maxsize is positive and
qsize has reached it (a maxsize of 0 means unbounded in queue.Queue). -/
def SubQueue.isFull (q : SubQueue) : Bool :=
  decide (0 < q.maxsize) && decide (q.maxsize ≤ q.items.length)

/-- Queue.put_nowait: none signals the Full exception. -/
def put_nowait (q : SubQueue) (msg : String) : Option SubQueue :=
  if q.isFull then none else some { q with items := q.items ++ [msg] }

/-- Queue.get_nowait: none signals the Empty exception. -/
def get_nowait (q : SubQueue) : Option (String × SubQueue) :=
  match q.items with
  | [] => none
  | x :: rest => some (x, { q with items := rest })

/-- ParkingServer._publish_event, per-subscriber enqueue under the
configured backpressure policy (lines 656-672).  drop_oldest: try
put_nowait; on Full, get_nowait then put_nowait, any failure inside that
recovery swallowed by the bare except.  Any other policy: put_nowait, and
a Full exception is caught by the surrounding handler, dropping the event. -/
def enqueue_event (policy : String) (q : SubQueue) (msg : String) : SubQueue :=
  if policy = "drop_oldest" then
    match put_nowait q msg with
    | some q1 => q1
    | none =>
        match get_nowait q with
        | none => q
        | some (_, q1) =>
            match put_nowait q1 msg with
            | some q2 => q2
            | none => q1
  else
    match put_nowait q msg with
    | some q1 => q1
    | none => q

/-- Subscriber record (class Subscriber, lines 125-132); the owning
connection handle is network plumbing and is not modelled. -/
structure Subscriber where
  sub_id : Nat
  lot_id : String
  queue : SubQueue
  active : Bool
deriving Repr, DecidableEq

/-- ParkingServer._publish_event over the subscriber registry (lines
649-675): every active subscriber of the lot receives the event under the
backpressure policy; other subscribers are untouched. -/
def publish_event (policy : String) (subs : List Subscriber)
    (lot_id : String) (event_msg : String) : List Subscriber :=
  subs.map (fun s =>
    if s.lot_id = lot_id ∧ s.active = true then
      { s with queue := enqueue_event policy s.queue event_msg }
    else s)

/-- Result value of a pub/sub RPC response (sub ids for subscribe,
booleans for unsubscribe). -/
inductive RVal where
  | nat (n : Nat)
  | bool (b : Bool)
deriving Repr, DecidableEq

/-- JSON response envelope {rpcId, result, error} of the pub/sub control
channel. -/
structure RpcResponse where
  rpcId : Nat
  result : Option RVal
  error : Option String
deriving Repr, DecidableEq

/-- Pub/sub registry state: the monotonic id counter self.next_sub_id and
the dict self.subscribers (sub_id -> Subscriber). -/
structure PubSubState where
  next_sub_id : Nat
  subscribers : List (Nat × Subscriber)
deriving Repr, DecidableEq

/-- ParkingServer._process_pubsub_request, subscribe branch (lines
579-596): unknown lot raises ValueError, caught into an error response
with the state unchanged; otherwise the next id is allocated, the counter
bumped, and a fresh subscriber with an empty bounded queue registered. -/
def subscribe_request (lots : LotsMap) (max_queue_size : Nat)
    (st : PubSubState) (rpc_id : Nat) (lot_id : String) :
    RpcResponse × PubSubState :=
  match lookupLot lots lot_id with
  | none =>
      ({ rpcId := rpc_id, result := none,
         error := some ("Unknown lot: " ++ lot_id) }, st)
  | some _ =>
      let sub_id := st.next_sub_id
      ({ rpcId := rpc_id, result := some (RVal.nat sub_id), error := none },
       { next_sub_id := st.next_sub_id + 1,
         subscribers := st.subscribers ++
           [(sub_id,
             { sub_id := sub_id, lot_id := lot_id,
               queue := { maxsize := max_queue_size, items := [] },
               active := true })] })

/-- ParkingServer._process_pubsub_request, unsubscribe branch (lines
598-610): a registered id is marked inactive and deleted, answering
result true with a null error; an unknown id answers result false with
the non-null error string used by the source. -/
def unsubscribe_request (st : PubSubState) (rpc_id : Nat) (sub_id : Nat) :
    RpcResponse × PubSubState :=
  if st.subscribers.any (fun p => decide (p.1 = sub_id)) then
    ({ rpcId := rpc_id, result := some (RVal.bool true), error := none },
     { st with subscribers :=
         st.subscribers.filter (fun p => ! decide (p.1 = sub_id)) })
  else
    ({ rpcId := rpc_id, result := some (RVal.bool false),
       error := some "Unknown subscription" }, st)

/-- One request on the pub/sub control channel. -/
inductive PubSubOp where
  | sub (rpc_id : Nat) (lot_id : String)
  | unsub (rpc_id : Nat) (sub_id : Nat)
deriving Repr, DecidableEq

/-- Run a sequence of pub/sub requests, returning the final state and the
subscription ids returned by the successful subscribe calls, in order. -/
def runPubSub (lots : LotsMap) (max_queue_size : Nat) (st : PubSubState) :
    List PubSubOp → PubSubState × List Nat
  | [] => (st, [])
  | PubSubOp.sub r lid :: rest =>
      let out := subscribe_request lots max_queue_size st r lid
      let tail := runPubSub lots max_queue_size out.2 rest
      match out.1.result, out.1.error with
      | some (RVal.nat i), none => (tail.1, i :: tail.2)
      | _, _ => (tail.1, tail.2)
  | PubSubOp.unsub r sid :: rest =>
      runPubSub lots max_queue_size (unsubscribe_request st r sid).2 rest

end Parking

namespace Parking

/-! Helper lemmas about the lot operations. -/

theorem get_free_eq (now : Int) (lot : ParkingLot) :
    get_free now lot = (freeOf (cleanup_expired now lot), cleanup_expired now lot) := rfl

theorem cleanup_idem (now : Int) (lot : ParkingLot) :
    cleanup_expired now (cleanup_expired now lot) = cleanup_expired now lot := by
  simp [cleanup_expired, List.filter_filter]

theorem length_cleanup_le (now : Int) (lot : ParkingLot) :
    (cleanup_expired now lot).reservations.length ≤ lot.reservations.length :=
  List.length_filter_le _ _

theorem reserve_cases (now : Int) (plate : String) (ttl : Int) (lot : ParkingLot) :
    (hasKey (cleanup_expired now lot).reservations plate = true ∧
      reserve now plate ttl lot = ("EXISTS", cleanup_expired now lot)) ∨
    (hasKey (cleanup_expired now lot).reservations plate = false ∧
      freeOf (cleanup_expired now lot) ≤ 0 ∧
      reserve now plate ttl lot = ("FULL", cleanup_expired now lot)) ∨
    (hasKey (cleanup_expired now lot).reservations plate = false ∧
      0 < freeOf (cleanup_expired now lot) ∧
      reserve now plate ttl lot = ("OK",
        { cleanup_expired now lot with
          reservations := (cleanup_expired now lot).reservations ++
            [(plate, { lot_id := lot.id, plate := plate, created_at := now,
                       expires_at := now + ttl })] })) := by
  by_cases hk : hasKey (cleanup_expired now lot).reservations plate = true
  · refine Or.inl ⟨hk, ?_⟩
    simp only [reserve, get_free_eq, cleanup_idem]
    rw [if_pos hk]
  · have hk' : hasKey (cleanup_expired now lot).reservations plate = false := by
      simpa using hk
    by_cases hf : freeOf (cleanup_expired now lot) ≤ 0
    · refine Or.inr (Or.inl ⟨hk', hf, ?_⟩)
      simp only [reserve, get_free_eq, cleanup_idem]
      rw [if_neg hk, if_pos hf]
    · refine Or.inr (Or.inr ⟨hk', not_le.mp hf, ?_⟩)
      simp only [reserve, get_free_eq, cleanup_idem]
      rw [if_neg hk, if_neg hf]
      rfl

theorem reserve_exists_of_hasKey (now : Int) (plate : String) (ttl : Int)
    (lot : ParkingLot)
    (hk : hasKey (cleanup_expired now lot).reservations plate = true) :
    (reserve now plate ttl lot).1 = "EXISTS" := by
  rcases reserve_cases now plate ttl lot with ⟨_, he⟩ | ⟨hkf, _, _⟩ | ⟨hkf, _, _⟩
  · simp [he]
  · rw [hk] at hkf; cases hkf
  · rw [hk] at hkf; cases hkf

theorem reserve_occupied (now : Int) (plate : String) (ttl : Int) (lot : ParkingLot) :
    (reserve now plate ttl lot).2.occupied = lot.occupied := by
  rcases reserve_cases now plate ttl lot with ⟨_, h⟩ | ⟨_, _, h⟩ | ⟨_, _, h⟩ <;>
    (rw [h]; rfl)

theorem reserve_capacity (now : Int) (plate : String) (ttl : Int) (lot : ParkingLot) :
    (reserve now plate ttl lot).2.capacity = lot.capacity := by
  rcases reserve_cases now plate ttl lot with ⟨_, h⟩ | ⟨_, _, h⟩ | ⟨_, _, h⟩ <;>
    (rw [h]; rfl)

theorem reserve_id (now : Int) (plate : String) (ttl : Int) (lot : ParkingLot) :
    (reserve now plate ttl lot).2.id = lot.id := by
  rcases reserve_cases now plate ttl lot with ⟨_, h⟩ | ⟨_, _, h⟩ | ⟨_, _, h⟩ <;>
    (rw [h]; rfl)

theorem cancel_cases (plate : String) (lot : ParkingLot) :
    (hasKey lot.reservations plate = true ∧
      cancel plate lot
        = ("OK", { lot with reservations := removeKey lot.reservations plate })) ∨
    (hasKey lot.reservations plate = false ∧
      cancel plate lot = ("NOT_FOUND", lot)) := by
  by_cases hk : hasKey lot.reservations plate = true
  · refine Or.inl ⟨hk, ?_⟩
    simp only [cancel]
    rw [if_pos hk]
  · have hk' : hasKey lot.reservations plate = false := by simpa using hk
    refine Or.inr ⟨hk', ?_⟩
    simp only [cancel]
    rw [if_neg hk]

theorem cancel_occupied (plate : String) (lot : ParkingLot) :
    (cancel plate lot).2.occupied = lot.occupied := by
  rcases cancel_cases plate lot with ⟨_, h⟩ | ⟨_, h⟩ <;> simp [h]

theorem cancel_capacity (plate : String) (lot : ParkingLot) :
    (cancel plate lot).2.capacity = lot.capacity := by
  rcases cancel_cases plate lot with ⟨_, h⟩ | ⟨_, h⟩ <;> simp [h]

theorem cancel_id (plate : String) (lot : ParkingLot) :
    (cancel plate lot).2.id = lot.id := by
  rcases cancel_cases plate lot with ⟨_, h⟩ | ⟨_, h⟩ <;> simp [h]

theorem update_occupancy_occupied (now delta : Int) (lot : ParkingLot) :
    (update_occupancy now delta lot).2.occupied
      = max 0 (min lot.capacity (lot.occupied + delta)) := rfl

theorem update_occupancy_capacity (now delta : Int) (lot : ParkingLot) :
    (update_occupancy now delta lot).2.capacity = lot.capacity := rfl

theorem update_occupancy_id (now delta : Int) (lot : ParkingLot) :
    (update_occupancy now delta lot).2.id = lot.id := rfl

theorem apply_capacity (lot : ParkingLot) (op : LotOp) :
    (LotOp.apply lot op).capacity = lot.capacity := by
  cases op with
  | getFree now => rfl
  | reserveOp now plate ttl => exact reserve_capacity now plate ttl lot
  | cancelOp plate => exact cancel_capacity plate lot
  | applyDelta now delta => rfl
  | snapshotOp now => rfl

theorem apply_id (lot : ParkingLot) (op : LotOp) :
    (LotOp.apply lot op).id = lot.id := by
  cases op with
  | getFree now => rfl
  | reserveOp now plate ttl => exact reserve_id now plate ttl lot
  | cancelOp plate => exact cancel_id plate lot
  | applyDelta now delta => rfl
  | snapshotOp now => rfl

theorem runOps_capacity (lot : ParkingLot) (ops : List LotOp) :
    (runOps lot ops).capacity = lot.capacity := by
  induction ops generalizing lot with
  | nil => rfl
  | cons op ops ih =>
      calc (runOps (LotOp.apply lot op) ops).capacity
          = (LotOp.apply lot op).capacity := ih _
        _ = lot.capacity := apply_capacity lot op

theorem runOps_id (lot : ParkingLot) (ops : List LotOp) :
    (runOps lot ops).id = lot.id := by
  induction ops generalizing lot with
  | nil => rfl
  | cons op ops ih =>
      calc (runOps (LotOp.apply lot op) ops).id
          = (LotOp.apply lot op).id := ih _
        _ = lot.id := apply_id lot op

theorem inv1_cleanup (now : Int) (lot : ParkingLot) (h : Inv1 lot) :
    Inv1 (cleanup_expired now lot) := h

theorem inv1_apply (lot : ParkingLot) (op : LotOp) (h : Inv1 lot) :
    Inv1 (LotOp.apply lot op) := by
  have hcap : (0 : Int) ≤ lot.capacity := le_trans h.1 h.2
  cases op with
  | getFree now => exact h
  | reserveOp now plate ttl =>
      exact ⟨reserve_occupied now plate ttl lot ▸ h.1,
             reserve_capacity now plate ttl lot ▸
               reserve_occupied now plate ttl lot ▸ h.2⟩
  | cancelOp plate =>
      exact ⟨cancel_occupied plate lot ▸ h.1,
             cancel_capacity plate lot ▸ cancel_occupied plate lot ▸ h.2⟩
  | applyDelta now delta =>
      constructor
      · rw [LotOp.apply, update_occupancy_occupied]
        exact le_max_left _ _
      · rw [LotOp.apply, update_occupancy_occupied, update_occupancy_capacity]
        exact max_le hcap (min_le_left _ _)
  | snapshotOp now => exact h

theorem runOps_inv1 (lot : ParkingLot) (ops : List LotOp) (h : Inv1 lot) :
    Inv1 (runOps lot ops) := by
  induction ops generalizing lot with
  | nil => exact h
  | cons op ops ih => exact ih _ (inv1_apply lot op h)

theorem inv2_cleanup (now : Int) (lot : ParkingLot) (h : Inv2 lot) :
    Inv2 (cleanup_expired now lot) := by
  refine ⟨h.1, ?_⟩
  have hl := length_cleanup_le now lot
  have h2 := h.2
  simp only [cleanup_expired] at hl ⊢
  omega

theorem inv2_reserve (now : Int) (plate : String) (ttl : Int)
    (lot : ParkingLot) (h : Inv2 lot) : Inv2 (reserve now plate ttl lot).2 := by
  have hc := inv2_cleanup now lot h
  rcases reserve_cases now plate ttl lot with ⟨_, he⟩ | ⟨_, _, he⟩ | ⟨_, hf, he⟩
  · rw [he]; exact hc
  · rw [he]; exact hc
  · rw [he]
    refine ⟨hc.1, ?_⟩
    simp only [freeOf] at hf
    simp only [List.length_append, List.length_cons, List.length_nil]
    push_cast
    omega

theorem inv2_cancel (plate : String) (lot : ParkingLot) (h : Inv2 lot) :
    Inv2 (cancel plate lot).2 := by
  rcases cancel_cases plate lot with ⟨_, he⟩ | ⟨_, he⟩
  · rw [he]
    refine ⟨h.1, ?_⟩
    show lot.occupied + ((removeKey lot.reservations plate).length : Int)
        ≤ lot.capacity
    have hl : (removeKey lot.reservations plate).length
        ≤ lot.reservations.length := List.length_filter_le _ _
    have h2 := h.2
    omega
  · rw [he]; exact h

theorem inv2_apply (lot : ParkingLot) (op : LotOp) (hop : op.isDelta = false)
    (h : Inv2 lot) : Inv2 (LotOp.apply lot op) := by
  cases op with
  | getFree now => exact inv2_cleanup now lot h
  | reserveOp now plate ttl => exact inv2_reserve now plate ttl lot h
  | cancelOp plate => exact inv2_cancel plate lot h
  | applyDelta now delta => exact absurd hop (by simp [LotOp.isDelta])
  | snapshotOp now => exact inv2_cleanup now lot h

theorem runOps_inv2 (lot : ParkingLot) (ops : List LotOp)
    (hops : ∀ op ∈ ops, op.isDelta = false) (h : Inv2 lot) :
    Inv2 (runOps lot ops) := by
  induction ops generalizing lot with
  | nil => exact h
  | cons op ops ih =>
      exact ih _ (fun o ho => hops o (List.mem_cons_of_mem _ ho))
        (inv2_apply lot op (hops op (List.mem_cons_self _ _)) h)

theorem get_free_le_capacity (now : Int) (lot : ParkingLot) (h : Inv1 lot) :
    (get_free now lot).1 ≤ lot.capacity := by
  rw [get_free_eq]
  have h1 : 0 ≤ (cleanup_expired now lot).occupied := h.1
  have h2 : (0 : Int) ≤ ((cleanup_expired now lot).reservations.length : Int) :=
    Int.ofNat_nonneg _
  simp only [freeOf, cleanup_expired] at h1 h2 ⊢
  omega

theorem get_free_nonneg (now : Int) (lot : ParkingLot) (h : Inv2 lot) :
    0 ≤ (get_free now lot).1 := by
  rw [get_free_eq]
  have hl := length_cleanup_le now lot
  have h2 := h.2
  simp only [freeOf, cleanup_expired] at hl h2 ⊢
  omega

/-- C1 counterexample: from the valid initial state (capacity 1,
occupied 0, no reservations), Reserve admits plate X, and a sensor delta
of +1 then fills the lot while the reservation is still active, driving
the derived free value to -1 < 0.  The claimed invariant 0 ≤ free fails. -/
theorem C1_counterexample :
    ValidInit (ParkingLot.mk "L" 1 0 []) ∧
    (get_free 0 (runOps (ParkingLot.mk "L" 1 0 [])
        [LotOp.reserveOp 0 "X" 100, LotOp.applyDelta 0 1])).1 = -1 :=
  ⟨⟨by decide, by decide, rfl⟩, by decide⟩

/-- C1 amended: after any sequence of lot operations from a valid initial
state, free ≤ capacity always holds, and 0 ≤ free additionally holds
whenever the sequence contains no ApplyDelta, since update_occupancy
clamps occupied while ignoring the active reservations. -/
theorem C1_free_bounds (init : ParkingLot) (h : ValidInit init)
    (ops : List LotOp) (now : Int) :
    (get_free now (runOps init ops)).1 ≤ init.capacity ∧
    ((∀ op ∈ ops, op.isDelta = false) →
      0 ≤ (get_free now (runOps init ops)).1) := by
  have h1 : Inv1 init := ⟨h.1, h.2.1⟩
  constructor
  · have hle := get_free_le_capacity now (runOps init ops)
      (runOps_inv1 init ops h1)
    rwa [runOps_capacity] at hle
  · intro hops
    have h21 := h.2.1
    have h2 : Inv2 init := ⟨h1, by simp [h.2.2]; omega⟩
    exact get_free_nonneg now _ (runOps_inv2 init ops hops h2)

/-- Witness for C1 at a concrete run: capacity 10, occupied 8, one
reservation taken. -/
theorem C1_free_bounds_witness :
    (get_free 0 (runOps (ParkingLot.mk "A" 10 8 [])
        [LotOp.reserveOp 0 "X" 60])).1 ≤ 10 ∧
    0 ≤ (get_free 0 (runOps (ParkingLot.mk "A" 10 8 [])
        [LotOp.reserveOp 0 "X" 60])).1 := by
  have h := C1_free_bounds (ParkingLot.mk "A" 10 8 [])
    ⟨by decide, by decide, rfl⟩ [LotOp.reserveOp 0 "X" 60] 0
  exact ⟨h.1, h.2 (by decide)⟩

/-- C2: reserve answers EXISTS when the plate has an active reservation
after the sweep; otherwise FULL when the swept free count is at most 0,
in particular whenever occupied equals capacity; otherwise OK; and after
a successful reserve, a second reserve for the same plate issued while
the first reservation is still unexpired answers EXISTS, so the two
calls never both answer OK. -/
theorem C2_reserve_no_double_ok (lot : ParkingLot) (now : Int)
    (plate : String) (ttl : Int) :
    (hasKey (cleanup_expired now lot).reservations plate = true →
      (reserve now plate ttl lot).1 = "EXISTS") ∧
    (hasKey (cleanup_expired now lot).reservations plate = false →
      freeOf (cleanup_expired now lot) ≤ 0 →
      (reserve now plate ttl lot).1 = "FULL") ∧
    (hasKey (cleanup_expired now lot).reservations plate = false →
      lot.occupied = lot.capacity → (reserve now plate ttl lot).1 = "FULL") ∧
    (hasKey (cleanup_expired now lot).reservations plate = false →
      0 < freeOf (cleanup_expired now lot) →
      (reserve now plate ttl lot).1 = "OK") ∧
    ((reserve now plate ttl lot).1 = "OK" →
      ∀ now2 ttl2 : Int, now2 ≤ now + ttl →
        (reserve now2 plate ttl2 (reserve now plate ttl lot).2).1
          = "EXISTS") := by
  have hfull0 : hasKey (cleanup_expired now lot).reservations plate = false →
      freeOf (cleanup_expired now lot) ≤ 0 →
      (reserve now plate ttl lot).1 = "FULL" := by
    intro hk hf
    rcases reserve_cases now plate ttl lot with ⟨hk2, _⟩ | ⟨_, _, he⟩ | ⟨_, hg, _⟩
    · rw [hk] at hk2; cases hk2
    · simp [he]
    · omega
  refine ⟨?_, hfull0, ?_, ?_, ?_⟩
  · exact fun hk => reserve_exists_of_hasKey now plate ttl lot hk
  · intro hk hocc
    refine hfull0 hk ?_
    show lot.capacity - lot.occupied
        - (((cleanup_expired now lot).reservations.length : Nat) : Int) ≤ 0
    have hn : (0 : Int)
        ≤ (((cleanup_expired now lot).reservations.length : Nat) : Int) :=
      Int.ofNat_nonneg _
    omega
  · intro hk hf
    rcases reserve_cases now plate ttl lot with ⟨hk2, _⟩ | ⟨_, hg, _⟩ | ⟨_, _, he⟩
    · rw [hk] at hk2; cases hk2
    · omega
    · simp [he]
  · intro hOK now2 ttl2 hle
    rcases reserve_cases now plate ttl lot with ⟨_, he⟩ | ⟨_, _, he⟩ | ⟨_, _, he⟩
    · rw [he] at hOK; simp at hOK
    · rw [he] at hOK; simp at hOK
    · rw [he]
      have hk2 : hasKey (cleanup_expired now2
          { cleanup_expired now lot with
            reservations := (cleanup_expired now lot).reservations ++
              [(plate, { lot_id := lot.id, plate := plate, created_at := now,
                         expires_at := now + ttl })] }).reservations plate
          = true := by
        simp only [cleanup_expired, hasKey, List.any_eq_true]
        refine ⟨(plate, { lot_id := lot.id, plate := plate, created_at := now,
                          expires_at := now + ttl }), ?_, by simp⟩
        rw [List.mem_filter]
        refine ⟨List.mem_append_right _ (by simp), ?_⟩
        simp [Reservation.is_expired, not_lt.mpr hle]
      exact reserve_exists_of_hasKey now2 plate ttl2 _ hk2

/-- Witness for C2: a full lot answers FULL, and back-to-back reserves of
one plate answer OK then EXISTS. -/
theorem C2_reserve_no_double_ok_witness :
    (reserve 0 "X" 60 (ParkingLot.mk "A" 10 10 [])).1 = "FULL" ∧
    (reserve 5 "X" 60 (reserve 0 "X" 60 (ParkingLot.mk "A" 10 8 [])).2).1
      = "EXISTS" :=
  ⟨(C2_reserve_no_double_ok (ParkingLot.mk "A" 10 10 []) 0 "X" 60).2.2.1
      (by decide) rfl,
   (C2_reserve_no_double_ok (ParkingLot.mk "A" 10 8 []) 0 "X" 60).2.2.2.2
      (by decide) 5 60 (by decide)⟩

/-- C3 counterexample: reserve plate X with TTL 10 at time 0; at time 11
the reservation is expired, yet cancel - which performs no sweep and does
not consult the clock at all - still finds the stale entry and answers
OK, not the claimed NOT_FOUND. -/
theorem C3_counterexample :
    (reserve 0 "X" 10 (ParkingLot.mk "L" 5 0 [])).1 = "OK" ∧
    (∀ p ∈ (reserve 0 "X" 10 (ParkingLot.mk "L" 5 0 [])).2.reservations,
      p.2.is_expired 11 = true) ∧
    (cancel "X" (reserve 0 "X" 10 (ParkingLot.mk "L" 5 0 [])).2).1 = "OK" :=
  ⟨by decide, by decide, by decide⟩

/-- C3 amended: when every reservation of a plate is expired at `now`,
GetFree does not count it (the swept state drops it and the free value
equals the one with the plate removed), Reserve does not answer EXISTS
because of it, and Cancel answers NOT_FOUND once some sweeping access has
removed it; Cancel alone does not sweep, so with no intervening access it
still answers OK on the stale entry (see the counterexample). -/
theorem C3_expired_treated_absent (lot : ParkingLot) (now : Int)
    (plate : String)
    (hexp : ∀ p ∈ lot.reservations, p.1 = plate →
      p.2.is_expired now = true) :
    hasKey (get_free now lot).2.reservations plate = false ∧
    (get_free now lot).1 = (get_free now
      { lot with reservations := removeKey lot.reservations plate }).1 ∧
    (∀ ttl, (reserve now plate ttl lot).1 ≠ "EXISTS") ∧
    (cancel plate (get_free now lot).2).1 = "NOT_FOUND" := by
  have hk : hasKey (cleanup_expired now lot).reservations plate = false := by
    simp only [hasKey, cleanup_expired]
    rw [List.any_eq_false]
    intro x hx
    rw [List.mem_filter] at hx
    simp only [decide_eq_true_eq]
    intro hxp
    have hdead := hexp x hx.1 hxp
    rw [hdead] at hx
    simp at hx
  have hfilter : lot.reservations.filter (fun p => ! p.2.is_expired now)
      = (removeKey lot.reservations plate).filter
          (fun p => ! p.2.is_expired now) := by
    rw [removeKey, List.filter_filter]
    apply List.filter_congr
    intro x hx
    by_cases hxp : x.1 = plate
    · have hdead := hexp x hx hxp
      simp [hdead]
    · simp [hxp]
  refine ⟨by rw [get_free_eq]; exact hk, ?_, ?_, ?_⟩
  · rw [get_free_eq, get_free_eq]
    simp only [freeOf, cleanup_expired]
    rw [hfilter]
  · intro ttl hcontra
    rcases reserve_cases now plate ttl lot with ⟨hk2, _⟩ | ⟨_, _, he⟩ | ⟨_, _, he⟩
    · rw [hk] at hk2; cases hk2
    · rw [he] at hcontra; simp at hcontra
    · rw [he] at hcontra; simp at hcontra
  · have hk0 : hasKey (get_free now lot).2.reservations plate = false := by
      rw [get_free_eq]; exact hk
    rcases cancel_cases plate (get_free now lot).2 with ⟨hkk, _⟩ | ⟨_, he⟩
    · rw [hk0] at hkk; cases hkk
    · simp [he]

/-- Witness for C3 at a concrete expired reservation (TTL 10, read at
time 11). -/
theorem C3_expired_treated_absent_witness :
    hasKey (get_free 11 (ParkingLot.mk "L" 5 0
        [("X", Reservation.mk "L" "X" 0 10)])).2.reservations "X" = false ∧
    (reserve 11 "X" 30 (ParkingLot.mk "L" 5 0
        [("X", Reservation.mk "L" "X" 0 10)])).1 ≠ "EXISTS" ∧
    (cancel "X" (get_free 11 (ParkingLot.mk "L" 5 0
        [("X", Reservation.mk "L" "X" 0 10)])).2).1 = "NOT_FOUND" := by
  have h := C3_expired_treated_absent
    (ParkingLot.mk "L" 5 0 [("X", Reservation.mk "L" "X" 0 10)]) 11 "X"
    (by decide)
  exact ⟨h.1, h.2.2.1 30, h.2.2.2⟩

/-- C4: for a lot with 0 ≤ occupied ≤ capacity and any integer delta,
update_occupancy sets occupied to clamp(occupied + delta, 0, capacity),
never leaves [0, capacity], returns the post-sweep free count of the
resulting state, and delta = capacity from occupied = 0 lands exactly at
occupied = capacity. -/
theorem C4_applyDelta_clamps (lot : ParkingLot) (now delta : Int)
    (h0 : 0 ≤ lot.occupied) (hc : lot.occupied ≤ lot.capacity) :
    (update_occupancy now delta lot).2.occupied
        = max 0 (min lot.capacity (lot.occupied + delta)) ∧
    0 ≤ (update_occupancy now delta lot).2.occupied ∧
    (update_occupancy now delta lot).2.occupied ≤ lot.capacity ∧
    (update_occupancy now delta lot).1
        = lot.capacity - (update_occupancy now delta lot).2.occupied
            - ((update_occupancy now delta lot).2.reservations.length : Int) ∧
    (lot.occupied = 0 → delta = lot.capacity →
      (update_occupancy now delta lot).2.occupied = lot.capacity) := by
  have hcap : (0 : Int) ≤ lot.capacity := le_trans h0 hc
  refine ⟨?_, ?_, ?_, ?_, ?_⟩
  · simp [update_occupancy, get_free, cleanup_expired]
  · simp [update_occupancy, get_free, cleanup_expired]
  · simp only [update_occupancy, get_free, cleanup_expired]
    exact max_le hcap (min_le_left _ _)
  · simp [update_occupancy, get_free, cleanup_expired, List.filter_filter]
  · intro h1 h2
    simp only [update_occupancy, get_free, cleanup_expired]
    simp [h1, h2, hcap]

/-- Witness for C4 at a concrete lot (capacity 10, occupied 0, delta 10). -/
theorem C4_applyDelta_clamps_witness :
    (update_occupancy 0 10 (ParkingLot.mk "A" 10 0 [])).2.occupied = 10 := by
  have h := C4_applyDelta_clamps (ParkingLot.mk "A" 10 0 []) 0 10
    (by decide) (by decide)
  exact h.2.2.2.2 rfl rfl

/-- C5: when a sensor delta names a registered lot, the worker publishes
exactly the single event (lot_id, new_free) when the free count changed
across the delta, and publishes nothing when it did not; no warning is
logged. -/
theorem C5_publish_iff_changed (lots : LotsMap) (lot_id : String)
    (lot : ParkingLot) (now delta : Int)
    (h : lookupLot lots lot_id = some lot) :
    ((get_free now lot).1 ≠ (update_occupancy now delta (get_free now lot).2).1 →
      (update_worker_step now lots lot_id delta).published
        = [(lot_id, (update_occupancy now delta (get_free now lot).2).1)]) ∧
    ((get_free now lot).1 = (update_occupancy now delta (get_free now lot).2).1 →
      (update_worker_step now lots lot_id delta).published = []) ∧
    (update_worker_step now lots lot_id delta).warned = false := by
  refine ⟨?_, ?_, ?_⟩
  · intro hne
    simp only [update_worker_step, h]
    rw [if_neg hne]
  · intro heq
    simp only [update_worker_step, h]
    rw [if_pos heq]
  · simp [update_worker_step, h]

/-- Witness for C5, end-to-end scenario 3: capacity 10, occupied 8, delta
-2, free goes from 2 to 4, exactly one publish of ("A", 4). -/
theorem C5_publish_iff_changed_witness :
    (update_worker_step 0 [("A", ParkingLot.mk "A" 10 8 [])] "A" (-2)).published
      = [("A", 4)] := by
  have h := (C5_publish_iff_changed [("A", ParkingLot.mk "A" 10 8 [])] "A"
    (ParkingLot.mk "A" 10 8 []) 0 (-2) (by decide)).1 (by decide)
  exact h.trans (by decide)

/-- C7 counterexample: unsubscribe of an unregistered id answers result
false together with the NON-null error string "Unknown subscription", so
under the RPC convention (error non-null means the call failed) it is not
the claimed successful false result with a null error field. -/
theorem C7_counterexample :
    (unsubscribe_request (PubSubState.mk 1 []) 7 42).1.result
        = some (RVal.bool false) ∧
    (unsubscribe_request (PubSubState.mk 1 []) 7 42).1.error
        = some "Unknown subscription" :=
  ⟨by decide, by decide⟩

/-- C7 amended: unsubscribe of a registered id answers result true with a
null error and removes the subscription; a second unsubscribe of the same
id then answers result false, but with the non-null error string
"Unknown subscription" rather than a null error field. -/
theorem C7_unsubscribe_idempotent (st : PubSubState) (r1 r2 sub_id : Nat)
    (h : st.subscribers.any (fun p => decide (p.1 = sub_id)) = true) :
    (unsubscribe_request st r1 sub_id).1.result = some (RVal.bool true) ∧
    (unsubscribe_request st r1 sub_id).1.error = none ∧
    (unsubscribe_request st r1 sub_id).2.subscribers.any
        (fun p => decide (p.1 = sub_id)) = false ∧
    (unsubscribe_request (unsubscribe_request st r1 sub_id).2 r2 sub_id).1.result
        = some (RVal.bool false) ∧
    (unsubscribe_request (unsubscribe_request st r1 sub_id).2 r2 sub_id).1.error
        = some "Unknown subscription" := by
  have hgone : (st.subscribers.filter (fun p => ! decide (p.1 = sub_id))).any
      (fun p => decide (p.1 = sub_id)) = false := by
    rw [List.any_eq_false]
    intro x hx
    rw [List.mem_filter] at hx
    simp only [Bool.not_eq_eq_eq_not, Bool.not_true] at hx
    simp only [Bool.not_eq_true]
    exact hx.2
  refine ⟨by simp [unsubscribe_request, h], by simp [unsubscribe_request, h],
          ?_, ?_, ?_⟩
  · simp only [unsubscribe_request, if_pos h]
    exact hgone
  · simp [unsubscribe_request, h, hgone]
  · simp [unsubscribe_request, h, hgone]

/-- Witness for C7 at a registry holding exactly subscription 1. -/
theorem C7_unsubscribe_idempotent_witness :
    (unsubscribe_request (PubSubState.mk 2
        [(1, Subscriber.mk 1 "A" (SubQueue.mk 5 []) true)]) 3 1).1.result
      = some (RVal.bool true) ∧
    (unsubscribe_request (unsubscribe_request (PubSubState.mk 2
        [(1, Subscriber.mk 1 "A" (SubQueue.mk 5 []) true)]) 3 1).2 4 1).1.error
      = some "Unknown subscription" := by
  have h := C7_unsubscribe_idempotent (PubSubState.mk 2
    [(1, Subscriber.mk 1 "A" (SubQueue.mk 5 []) true)]) 3 4 1 (by decide)
  exact ⟨h.1, h.2.2.2.2⟩

/-- C8: a sensor update naming an unregistered lot is discarded: the
worker leaves the registry unchanged, publishes nothing, and only logs a
warning (the step function is total, so the worker survives); the sensor
handler enqueues any non-empty command line and answers ACK without ever
consulting the registry. -/
theorem C8_unknown_lot_discarded (lots : LotsMap) (lot_id : String)
    (now delta : Int) (h : lookupLot lots lot_id = none) (line : String)
    (hl : strip line ≠ "") :
    (update_worker_step now lots lot_id delta).lots = lots ∧
    (update_worker_step now lots lot_id delta).published = [] ∧
    (update_worker_step now lots lot_id delta).warned = true ∧
    handle_sensor_line line = ([strip line], ["ACK"]) := by
  refine ⟨?_, ?_, ?_, ?_⟩ <;>
    simp [update_worker_step, h, handle_sensor_line, hl]

/-- Witness for C8: the command line UPDATE B 1 against a registry that
only holds lot A. -/
theorem C8_unknown_lot_discarded_witness :
    (update_worker_step 0 [("A", ParkingLot.mk "A" 10 8 [])] "B" 1).lots
      = [("A", ParkingLot.mk "A" 10 8 [])] ∧
    (update_worker_step 0 [("A", ParkingLot.mk "A" 10 8 [])] "B" 1).warned
      = true ∧
    handle_sensor_line "UPDATE B 1" = (["UPDATE B 1"], ["ACK"]) := by
  have h := C8_unknown_lot_discarded [("A", ParkingLot.mk "A" 10 8 [])] "B"
    0 1 (by decide) "UPDATE B 1" (by decide)
  exact ⟨h.1, h.2.2.1, h.2.2.2.trans (by decide)⟩

/-! Helper lemmas about the bounded subscriber queues. -/

theorem enqueue_not_full (policy : String) (q : SubQueue) (msg : String)
    (h : q.isFull = false) :
    enqueue_event policy q msg = { q with items := q.items ++ [msg] } := by
  by_cases hp : policy = "drop_oldest" <;>
    simp [enqueue_event, put_nowait, h, hp]

theorem foldl_enqueue_fill (policy : String) (events : List String) :
    ∀ q : SubQueue, q.items.length + events.length ≤ q.maxsize →
      events.foldl (enqueue_event policy) q = { q with items := q.items ++ events } := by
  induction events with
  | nil => intro q h; simp
  | cons e es ih =>
      intro q h
      simp only [List.length_cons] at h
      have hlt : q.items.length < q.maxsize := by omega
      have hfull : q.isFull = false := by
        simp [SubQueue.isFull, Nat.not_le.mpr hlt]
      rw [List.foldl_cons, enqueue_not_full policy q e hfull,
          ih _ (by simp only [List.length_append, List.length_cons,
                  List.length_nil]; omega)]
      simp

theorem enqueue_drop_oldest_full (q : SubQueue) (msg : String)
    (hfull : q.isFull = true) (hle : q.items.length ≤ q.maxsize)
    (x : String) (rest : List String) (hi : q.items = x :: rest) :
    enqueue_event "drop_oldest" q msg = { q with items := rest ++ [msg] } := by
  have hb : 0 < q.maxsize ∧ q.maxsize ≤ q.items.length := by
    simpa [SubQueue.isFull] using hfull
  have hrest : rest.length < q.maxsize := by
    have : q.items.length = rest.length + 1 := by rw [hi]; simp
    omega
  have hfull1 : (SubQueue.mk q.maxsize rest).isFull = false := by
    simp [SubQueue.isFull, Nat.not_le.mpr hrest]
  simp [enqueue_event, put_nowait, get_nowait, hfull, hi, hfull1]

theorem publish_fold_singleton (policy : String) (events : List String)
    (sid : Nat) (L : String) :
    ∀ q : SubQueue,
      events.foldl (fun subs e => publish_event policy subs L e)
          [Subscriber.mk sid L q true]
        = [Subscriber.mk sid L (events.foldl (enqueue_event policy) q) true] := by
  induction events with
  | nil => intro q; rfl
  | cons e es ih =>
      intro q
      rw [List.foldl_cons]
      have hstep : publish_event policy [Subscriber.mk sid L q true] L e
          = [Subscriber.mk sid L (enqueue_event policy q e) true] := by
        simp [publish_event]
      rw [hstep, ih]
      rfl

/-- C6: under the drop_oldest policy, publishing N+1 events to one
subscriber with a fresh bounded queue of size N ≥ 1 and no draining
evicts the oldest event, leaving exactly the last N events, so the next
dequeue yields event number 2; under any other (default) policy a publish
onto a full queue drops the new event for that subscriber and leaves it
unchanged (the publisher never blocks). -/
theorem C6_backpressure (N : Nat) (hN : 1 ≤ N) (events : List String)
    (hlen : events.length = N + 1) (sid : Nat) (L : String) :
    (events.foldl (fun subs e => publish_event "drop_oldest" subs L e)
        [Subscriber.mk sid L (SubQueue.mk N []) true]
      = [Subscriber.mk sid L (SubQueue.mk N (events.drop 1)) true]) ∧
    (∀ (policy : String) (s : Subscriber) (e : String),
      policy ≠ "drop_oldest" → s.active = true → s.queue.isFull = true →
      publish_event policy [s] s.lot_id e = [s]) := by
  constructor
  · rw [publish_fold_singleton]
    rcases List.eq_nil_or_concat events with hnil | ⟨init, last, hcat⟩
    · rw [hnil] at hlen; simp at hlen
    · have hinit : init.length = N := by
        rw [hcat] at hlen
        simpa using hlen
      subst hcat
      simp only [List.concat_eq_append]
      rw [List.foldl_append,
          foldl_enqueue_fill "drop_oldest" init (SubQueue.mk N [])
            (by simp [hinit])]
      simp only [List.foldl_cons, List.foldl_nil, List.nil_append]
      obtain ⟨x, rest, hx⟩ : ∃ x rest, init = x :: rest := by
        cases init with
        | nil => rw [List.length_nil] at hinit; omega
        | cons a l => exact ⟨a, l, rfl⟩
      rw [enqueue_drop_oldest_full (SubQueue.mk N init) last
            (by simp [SubQueue.isFull, hinit]; omega) (by simp [hinit])
            x rest (by simpa using hx)]
      rw [hx]
      simp
  · intro policy s e hp hactive hfull
    obtain ⟨ssid, slot, squeue, sactive⟩ := s
    dsimp only at hactive hfull
    subst hactive
    have henq : enqueue_event policy squeue e = squeue := by
      simp [enqueue_event, hp, put_nowait, hfull]
    simp [publish_event, henq]

/-- Witness for C6: queue size 2, three events; and a default-policy
publish onto a full queue of size 1. -/
theorem C6_backpressure_witness :
    (["e1", "e2", "e3"].foldl
        (fun subs e => publish_event "drop_oldest" subs "A" e)
        [Subscriber.mk 1 "A" (SubQueue.mk 2 []) true]
      = [Subscriber.mk 1 "A" (SubQueue.mk 2 ["e2", "e3"]) true]) ∧
    (publish_event "default" [Subscriber.mk 1 "A" (SubQueue.mk 1 ["a"]) true]
        "A" "b"
      = [Subscriber.mk 1 "A" (SubQueue.mk 1 ["a"]) true]) := by
  have h := C6_backpressure 2 (by decide) ["e1", "e2", "e3"] (by decide) 1 "A"
  exact ⟨h.1, h.2 "default" (Subscriber.mk 1 "A" (SubQueue.mk 1 ["a"]) true)
    "b" (by decide) rfl (by decide)⟩

/-! Helper lemmas for the pub/sub id counter. -/

theorem unsubscribe_next_sub_id (st : PubSubState) (r sid : Nat) :
    (unsubscribe_request st r sid).2.next_sub_id = st.next_sub_id := by
  simp only [unsubscribe_request]
  split <;> rfl

theorem runPubSub_spec (lots : LotsMap) (maxq : Nat) (ops : List PubSubOp) :
    ∀ st : PubSubState,
      (∀ i ∈ (runPubSub lots maxq st ops).2, st.next_sub_id ≤ i) ∧
      List.Pairwise (· < ·) (runPubSub lots maxq st ops).2 := by
  induction ops with
  | nil => intro st; simp [runPubSub]
  | cons op rest ih =>
      intro st
      cases op with
      | sub r lid =>
          cases hfind : lookupLot lots lid with
          | none =>
              simpa [runPubSub, subscribe_request, hfind] using ih st
          | some lot =>
              have iht := ih
                { next_sub_id := st.next_sub_id + 1,
                  subscribers := st.subscribers ++
                    [(st.next_sub_id,
                      { sub_id := st.next_sub_id, lot_id := lid,
                        queue := { maxsize := maxq, items := [] },
                        active := true })] }
              obtain ⟨ihb, ihp⟩ := iht
              simp only [runPubSub, subscribe_request, hfind]
              constructor
              · intro i hi
                rcases List.mem_cons.mp hi with hieq | himem
                · omega
                · have := ihb i himem
                  simp only at this
                  omega
              · refine List.pairwise_cons.mpr ⟨?_, ihp⟩
                intro j hj
                have := ihb j hj
                simp only at this
                omega
      | unsub r sid =>
          have iht := ih (unsubscribe_request st r sid).2
          rw [unsubscribe_next_sub_id] at iht
          exact iht

/-- C9: starting from the initial counter value, the subscription ids
returned by the successful subscribe calls of any request sequence are
pairwise strictly increasing in call order; ids are therefore unique and
never reused, even after intervening unsubscribes, since unsubscribe
never moves the counter. -/
theorem C9_subscription_ids_increasing (lots : LotsMap) (maxq : Nat)
    (ops : List PubSubOp) :
    List.Pairwise (· < ·) (runPubSub lots maxq (PubSubState.mk 1 []) ops).2 :=
  (runPubSub_spec lots maxq ops (PubSubState.mk 1 [])).2

/-! Helper lemma for the delta frame condition. -/

theorem update_occupancy_reservations (now delta : Int) (lot : ParkingLot) :
    (update_occupancy now delta lot).2.reservations
      = lot.reservations.filter (fun p => ! p.2.is_expired now) := by
  simp [update_occupancy, get_free_eq, cleanup_expired, freeOf,
    List.filter_filter]

/-- Sweeping reads only filter the reservation list. -/
theorem get_free_reservations (now : Int) (lot : ParkingLot) :
    (get_free now lot).2.reservations
      = lot.reservations.filter (fun p => ! p.2.is_expired now) := rfl

/-- Snapshot shares the sweep of get_free. -/
theorem to_dict_reservations (now : Int) (lot : ParkingLot) :
    (to_dict now lot).2.reservations
      = lot.reservations.filter (fun p => ! p.2.is_expired now) := rfl

/-- C10 frame conditions: no operation sequence changes a lot id or a
capacity; GetFree, Reserve, Cancel and Snapshot leave occupied untouched;
ApplyDelta never adds a reservation (its surviving reservations all come
from the pre-state) and removes only expired ones (unexpired entries
survive); Cancel only ever removes entries of the cancelled plate; and
the remaining operations GetFree, Snapshot and Reserve likewise remove
only expired entries (unexpired ones survive each of them), GetFree and
Snapshot add nothing, and everything Reserve holds afterwards is either
a pre-state entry or its one explicit insertion for the reserved plate. -/
theorem C10_frame (lot : ParkingLot) (ops : List LotOp) (now delta : Int)
    (plate : String) (ttl : Int) :
    (runOps lot ops).id = lot.id ∧
    (runOps lot ops).capacity = lot.capacity ∧
    (get_free now lot).2.occupied = lot.occupied ∧
    (reserve now plate ttl lot).2.occupied = lot.occupied ∧
    (cancel plate lot).2.occupied = lot.occupied ∧
    (to_dict now lot).2.occupied = lot.occupied ∧
    (∀ p ∈ (update_occupancy now delta lot).2.reservations,
      p ∈ lot.reservations) ∧
    (∀ p ∈ lot.reservations, p.2.is_expired now = false →
      p ∈ (update_occupancy now delta lot).2.reservations) ∧
    (∀ p ∈ lot.reservations, p.1 ≠ plate →
      p ∈ (cancel plate lot).2.reservations) ∧
    (∀ p ∈ (cancel plate lot).2.reservations, p ∈ lot.reservations) ∧
    (∀ p ∈ (get_free now lot).2.reservations, p ∈ lot.reservations) ∧
    (∀ p ∈ lot.reservations, p.2.is_expired now = false →
      p ∈ (get_free now lot).2.reservations) ∧
    (∀ p ∈ (to_dict now lot).2.reservations, p ∈ lot.reservations) ∧
    (∀ p ∈ lot.reservations, p.2.is_expired now = false →
      p ∈ (to_dict now lot).2.reservations) ∧
    (∀ p ∈ lot.reservations, p.2.is_expired now = false →
      p ∈ (reserve now plate ttl lot).2.reservations) ∧
    (∀ p ∈ (reserve now plate ttl lot).2.reservations,
      p ∈ lot.reservations ∨ p.1 = plate) := by
  refine ⟨runOps_id lot ops, runOps_capacity lot ops, rfl,
    reserve_occupied now plate ttl lot, cancel_occupied plate lot, rfl,
    ?_, ?_, ?_, ?_, ?_, ?_, ?_, ?_, ?_, ?_⟩
  · intro p hp
    rw [update_occupancy_reservations] at hp
    exact (List.mem_filter.mp hp).1
  · intro p hp hlive
    rw [update_occupancy_reservations]
    exact List.mem_filter.mpr ⟨hp, by simp [hlive]⟩
  · intro p hp hne
    rcases cancel_cases plate lot with ⟨_, he⟩ | ⟨_, he⟩
    · rw [he]
      show p ∈ removeKey lot.reservations plate
      exact List.mem_filter.mpr ⟨hp, by simp [hne]⟩
    · rw [he]
      exact hp
  · intro p hp
    rcases cancel_cases plate lot with ⟨_, he⟩ | ⟨_, he⟩
    · rw [he] at hp
      exact (List.mem_filter.mp hp).1
    · rw [he] at hp
      exact hp
  · intro p hp
    rw [get_free_reservations] at hp
    exact (List.mem_filter.mp hp).1
  · intro p hp hlive
    rw [get_free_reservations]
    exact List.mem_filter.mpr ⟨hp, by simp [hlive]⟩
  · intro p hp
    rw [to_dict_reservations] at hp
    exact (List.mem_filter.mp hp).1
  · intro p hp hlive
    rw [to_dict_reservations]
    exact List.mem_filter.mpr ⟨hp, by simp [hlive]⟩
  · intro p hp hlive
    have hmem : p ∈ (cleanup_expired now lot).reservations :=
      List.mem_filter.mpr ⟨hp, by simp [hlive]⟩
    rcases reserve_cases now plate ttl lot with ⟨_, he⟩ | ⟨_, _, he⟩ | ⟨_, _, he⟩
    · rw [he]
      exact hmem
    · rw [he]
      exact hmem
    · rw [he]
      exact List.mem_append_left _ hmem
  · intro p hp
    rcases reserve_cases now plate ttl lot with ⟨_, he⟩ | ⟨_, _, he⟩ | ⟨_, _, he⟩
    · rw [he] at hp
      exact Or.inl (List.mem_filter.mp hp).1
    · rw [he] at hp
      exact Or.inl (List.mem_filter.mp hp).1
    · rw [he] at hp
      rcases List.mem_append.mp hp with hold | hnew
      · exact Or.inl (List.mem_filter.mp hold).1
      · rcases List.mem_singleton.mp hnew with heq
        exact Or.inr (by rw [heq])

/-- Witness for C10 on a lot holding one live and one expired reservation
at time 10. -/
theorem C10_frame_witness :
    (runOps (ParkingLot.mk "A" 10 2
        [("X", Reservation.mk "A" "X" 0 50), ("Y", Reservation.mk "A" "Y" 0 5)])
        [LotOp.applyDelta 10 3]).capacity = 10 ∧
    ("X", Reservation.mk "A" "X" 0 50) ∈ (update_occupancy 10 1
        (ParkingLot.mk "A" 10 2 [("X", Reservation.mk "A" "X" 0 50),
          ("Y", Reservation.mk "A" "Y" 0 5)])).2.reservations ∧
    ("X", Reservation.mk "A" "X" 0 50) ∈ (get_free 10
        (ParkingLot.mk "A" 10 2 [("X", Reservation.mk "A" "X" 0 50),
          ("Y", Reservation.mk "A" "Y" 0 5)])).2.reservations ∧
    ("X", Reservation.mk "A" "X" 0 50) ∈ (reserve 10 "Y" 30
        (ParkingLot.mk "A" 10 2 [("X", Reservation.mk "A" "X" 0 50),
          ("Y", Reservation.mk "A" "Y" 0 5)])).2.reservations ∧
    ("X", Reservation.mk "A" "X" 0 50) ∈ (cancel "Y"
        (ParkingLot.mk "A" 10 2 [("X", Reservation.mk "A" "X" 0 50),
          ("Y", Reservation.mk "A" "Y" 0 5)])).2.reservations := by
  have h := C10_frame (ParkingLot.mk "A" 10 2
      [("X", Reservation.mk "A" "X" 0 50), ("Y", Reservation.mk "A" "Y" 0 5)])
    [LotOp.applyDelta 10 3] 10 1 "Y" 30
  exact ⟨h.2.1, h.2.2.2.2.2.2.2.1 ("X", Reservation.mk "A" "X" 0 50)
      (by decide) (by decide),
    h.2.2.2.2.2.2.2.2.2.2.2.1 ("X", Reservation.mk "A" "X" 0 50)
      (by decide) (by decide),
    h.2.2.2.2.2.2.2.2.2.2.2.2.2.2.1 ("X", Reservation.mk "A" "X" 0 50)
      (by decide) (by decide),
    h.2.2.2.2.2.2.2.2.1 ("X", Reservation.mk "A" "X" 0 50)
      (by decide) (by decide)⟩

end Parking
